import Mathlib

/-!
Shallow embedding of the sandbox resolution and re-execution subsystem
(Go package `sandbox`): policy resolution (`getSandboxCommand`), config
building (`LoadConfig`), the seatbelt profile launcher (`startSandboxExec`)
and the container image presence check (`ensureSandboxImageIsPresent`).

Environment reads, the executable-existence probe, the platform identifier
and the outcomes of effectful OS calls are passed explicitly, so every
function is a pure function of its inputs, mirroring the Go code line by
line.
-/

namespace Sandbox

/-- The process environment variables read by the sandbox package. -/
structure Env where
  /-- value of the `SANDBOX` marker variable -/
  sandboxVar : String
  /-- value of the `GEMINI_SANDBOX` override variable -/
  geminiSandbox : String
  /-- value of the `GEMINI_SANDBOX_IMAGE` variable -/
  geminiSandboxImage : String
  /-- value of the `SEATBELT_PROFILE` variable -/
  seatbeltProfile : String
deriving DecidableEq, Repr

/-- The Go `any`-typed sandbox option: a bool, a string, or any other value
(the `default:` case of the type switch, which includes nil/absent). -/
inductive SandboxOption where
  | boolOpt (b : Bool)
  | strOpt (s : String)
  | otherOpt
deriving DecidableEq, Repr

/-- The error outcomes of the sandbox package, one constructor per
`fmt.Errorf` site relevant to resolution, config building and launching. -/
inductive SandboxError where
  | invalidCommand (cmd : String)
  | missingCommand (cmd : String)
  | noCommandForSandbox
  | missingImage
  | imageExistsCheckFailed
  | pullFailed
  | imageExistsCheckAfterPullFailed
  | imageUnavailableAfterPull
  | missingProfile (name : String)
  | createTempFailed
  | writeTempFailed
  | closeTempFailed
  | getwdFailed
  | homeDirFailed
  | cacheDirFailed
  | execNotFound
  | execFailed
deriving DecidableEq, Repr

/-- Go `Config` struct: the resolved sandbox command and image. -/
structure Config where
  /-- backend executable name: `docker`, `podman` or `sandbox-exec` -/
  command : String
  /-- container image reference -/
  image : String
deriving DecidableEq, Repr

/-- Go `IsInsideSandbox`: the `SANDBOX` marker variable is non-empty. -/
def IsInsideSandbox (env : Env) : Bool :=
  env.sandboxVar != ""

/-- List `validCommands` from `getSandboxCommand`. -/
def validCommands : List String := ["docker", "podman", "sandbox-exec"]

/-- Predicate `isValidCmd` from `getSandboxCommand`: membership in `validCommands`. -/
def isValidCmd (cmd : String) : Bool :=
  validCommands.contains cmd

/-- The `GEMINI_SANDBOX` override step of `getSandboxCommand`: a non-empty
override replaces the supplied option value. -/
def effectiveOption (env : Env) (sandboxOption : SandboxOption) : SandboxOption :=
  if env.geminiSandbox != "" then .strOpt env.geminiSandbox else sandboxOption

/-- ASCII whitespace, as trimmed by `strings.TrimSpace`. -/
def isSpaceChar (c : Char) : Bool :=
  c = ' ' || c = '\t' || c = '\n' || c = '\r' ||
    c = Char.ofNat 11 || c = Char.ofNat 12

/-- Drop leading whitespace characters. -/
def dropSpaces : List Char → List Char
  | [] => []
  | c :: cs => if isSpaceChar c then dropSpaces cs else c :: cs

/-- Go `strings.TrimSpace`: remove leading and trailing whitespace. -/
def trimSpace (s : String) : String :=
  ⟨(dropSpaces (dropSpaces s.data).reverse).reverse⟩

/-- Lowercase one character (`strings.ToLower` on ASCII letters). -/
def lowerChar (c : Char) : Char :=
  if 'A' ≤ c && c ≤ 'Z' then Char.ofNat (c.toNat + 32) else c

/-- Go `strings.ToLower`: lowercase every character. -/
def toLowerStr (s : String) : String :=
  ⟨s.data.map lowerChar⟩

/-- The type switch of `getSandboxCommand`: interprets the option value as
a pair `(sandbox, sandboxCmd)` of the generic-enable flag and the explicit
backend name (empty when none). Strings are trimmed and lowercased first. -/
def interpretOption (sandboxOption : SandboxOption) : Bool × String :=
  match sandboxOption with
  | .boolOpt b => (b, "")
  | .strOpt s =>
    let val := toLowerStr (trimSpace s)
    if val = "1" || val = "true" then (true, "")
    else if val = "0" || val = "false" || val = "" then (false, "")
    else (false, val)
  | .otherOpt => (false, "")

/-- Go `getSandboxCommand`: resolves the sandbox backend from the option value,
the environment, the platform identifier (`runtimeGOOS`) and the
executable-existence probe (`commandExists`). Returns the backend name, the
empty string for "no sandbox", or an error. -/
def getSandboxCommand (env : Env) (goos : String) (commandExists : String → Bool)
    (sandboxOption : SandboxOption) : Except SandboxError String :=
  if IsInsideSandbox env then .ok ""
  else
    let opt := effectiveOption env sandboxOption
    let p := interpretOption opt
    let sandbox := p.1
    let sandboxCmd := p.2
    if !sandbox && sandboxCmd = "" then .ok ""
    else if sandboxCmd != "" then
      if !isValidCmd sandboxCmd then .error (.invalidCommand sandboxCmd)
      else if !commandExists sandboxCmd then .error (.missingCommand sandboxCmd)
      else .ok sandboxCmd
    else if goos = "darwin" && commandExists "sandbox-exec" then .ok "sandbox-exec"
    else if commandExists "docker" && sandbox then .ok "docker"
    else if commandExists "podman" && sandbox then .ok "podman"
    else if sandbox then .error .noCommandForSandbox
    else .ok ""

/-- The built-in default image reference from `LoadConfig`. -/
def defaultImage : String :=
  "us-docker.pkg.dev/gemini-code-dev/gemini-cli/sandbox:latest"

/-- The image resolution steps of `LoadConfig` (lines 196-203): the option
value, else `GEMINI_SANDBOX_IMAGE`, else the built-in default. -/
def resolveImage (env : Env) (sandboxImageOption : String) : String :=
  let image0 := sandboxImageOption
  let image1 := if image0 = "" then env.geminiSandboxImage else image0
  if image1 = "" then defaultImage else image1

/-- Go `LoadConfig`: resolves the backend via `getSandboxCommand`, then the
image with precedence: option value, then `GEMINI_SANDBOX_IMAGE`, then the
built-in default. Returns `none` when no sandboxing is requested. -/
def LoadConfig (env : Env) (goos : String) (commandExists : String → Bool)
    (sandboxOption : SandboxOption) (sandboxImageOption : String) :
    Except SandboxError (Option Config) :=
  match getSandboxCommand env goos commandExists sandboxOption with
  | .error e => .error e
  | .ok command =>
    if command = "" then .ok none
    else
      let image := resolveImage env sandboxImageOption
      if image = "" && command != "sandbox-exec" then .error .missingImage
      else .ok (some { command := command, image := image })

/-- A filesystem event performed by the profile launcher: creation of a
transient file, a write to it, or its removal. -/
inductive FsEvent where
  | createTemp (name : String)
  | write (name : String)
  | remove (name : String)
deriving DecidableEq, Repr

/-- Outcome of a launch attempt: either the process image was replaced
(`syscall.Exec` succeeded, so nothing after it runs, deferred calls
included), or the function returned an error. -/
inductive LaunchOutcome where
  | replaced (name : String) (envVars : List String) (args : List String)
  | failed (e : SandboxError)
deriving DecidableEq, Repr

/-- The outcomes of the effectful OS calls made by `startSandboxExec`,
passed in explicitly: the set of bundled profile templates (name and
content), the result of `os.CreateTemp`, of the write/close on the temp
file, of the directory lookups, and of the final process replacement.
`execOutcome = none` means `syscall.Exec` succeeded and never returned. -/
structure ExecWorld where
  /-- bundled `profiles/<name>.sb` templates: `(name, content)` pairs -/
  profiles : List (String × String)
  /-- when `some name`, `os.CreateTemp` created a file with that name -/
  createTempResult : Option String
  writeOk : Bool
  closeOk : Bool
  getwdResult : Option String
  /-- result of `os.TempDir` (never fails in Go) -/
  tmpDir : String
  homeDirResult : Option String
  cacheDirResult : Option String
  /-- value of `os.Args[0]`: path of the running executable -/
  argv0 : String
  /-- snapshot of `os.Environ()` of the current process -/
  environ : List String
  /-- when `none`, `syscall.Exec` replaced the process; `some e`: it returned `e` -/
  execOutcome : Option SandboxError
deriving Repr

/-- Lookup `findProfile`: the `fs.ReadFile(profiles, "profiles/" + name + ".sb")`
lookup, as an association-list lookup by profile name. -/
def findProfile (profiles : List (String × String)) (name : String) :
    Option String :=
  match profiles with
  | [] => none
  | (n, data) :: rest => if n = name then some data else findProfile rest name

/-- The profile name resolution at the top of `startSandboxExec`:
`SEATBELT_PROFILE` when non-empty, else `permissive-open`. -/
def resolveProfileName (env : Env) : String :=
  if env.seatbeltProfile = "" then "permissive-open" else env.seatbeltProfile

/-- The `-D INCLUDE_DIR_i=/dev/null` placeholder arguments appended by
`startSandboxExec` for `i < n`. -/
def includeDirArgs : Nat → List String
  | 0 => []
  | n + 1 => includeDirArgs n ++ ["-D", "INCLUDE_DIR_" ++ toString n ++ "=/dev/null"]

/-- Go `startSandboxExec`: looks up the seatbelt profile, writes it to a
transient file, builds the `sandbox-exec` invocation and replaces the
process. Returns the outcome together with the ordered trace of filesystem
events; the `defer os.Remove` runs on every returning path after the file
is created, but not when the process image is replaced. -/
def startSandboxExec (w : ExecWorld) (env : Env) (args : List String) :
    LaunchOutcome × List FsEvent :=
  let profileName := resolveProfileName env
  match findProfile w.profiles profileName with
  | none => (.failed (.missingProfile profileName), [])
  | some _ =>
    match w.createTempResult with
    | none => (.failed .createTempFailed, [])
    | some tmp =>
      if !w.writeOk then
        (.failed .writeTempFailed, [.createTemp tmp, .remove tmp])
      else if !w.closeOk then
        (.failed .closeTempFailed, [.createTemp tmp, .write tmp, .remove tmp])
      else
        let fsTrace : List FsEvent := [.createTemp tmp, .write tmp]
        match w.getwdResult with
        | none => (.failed .getwdFailed, fsTrace ++ [.remove tmp])
        | some workDir =>
          match w.homeDirResult with
          | none => (.failed .homeDirFailed, fsTrace ++ [.remove tmp])
          | some homeDir =>
            match w.cacheDirResult with
            | none => (.failed .cacheDirFailed, fsTrace ++ [.remove tmp])
            | some cacheDir =>
              let cmdArgs : List String :=
                ["-f", tmp,
                 "-D", "TARGET_DIR=" ++ workDir,
                 "-D", "TMP_DIR=" ++ w.tmpDir,
                 "-D", "HOME_DIR=" ++ homeDir,
                 "-D", "CACHE_DIR=" ++ cacheDir]
                ++ includeDirArgs 5
                ++ [w.argv0] ++ args
              let childEnv := w.environ ++ ["SANDBOX=sandbox-exec"]
              match w.execOutcome with
              | none => (.replaced "sandbox-exec" childEnv cmdArgs, fsTrace)
              | some e => (.failed e, fsTrace ++ [.remove tmp])

/-- A container-backend event: one probe of local image presence
(`<cmd> images -q <image>`) or one pull (`<cmd> pull <image>`). -/
inductive ContainerEvent where
  | probe (cmd image : String)
  | pull (cmd image : String)
deriving DecidableEq, Repr

/-- Outcomes of the external commands run by
`ensureSandboxImageIsPresent`: the first `imageExists` probe (`none` when
the listing command itself fails, `some b` for presence `b`), the pull, and
the re-probe after the pull. -/
structure ImageWorld where
  probe1 : Option Bool
  pullOk : Bool
  probe2 : Option Bool
deriving DecidableEq, Repr

/-- Go `ensureSandboxImageIsPresent`: probe for the image; if absent, pull
once and re-probe; fail if it is still absent. Returns the outcome with
the ordered trace of probe/pull events. -/
def ensureSandboxImageIsPresent (w : ImageWorld) (sandboxCmd image : String) :
    Except SandboxError Unit × List ContainerEvent :=
  match w.probe1 with
  | none => (.error .imageExistsCheckFailed, [.probe sandboxCmd image])
  | some true => (.ok (), [.probe sandboxCmd image])
  | some false =>
    if !w.pullOk then
      (.error .pullFailed, [.probe sandboxCmd image, .pull sandboxCmd image])
    else
      match w.probe2 with
      | none =>
        (.error .imageExistsCheckAfterPullFailed,
         [.probe sandboxCmd image, .pull sandboxCmd image, .probe sandboxCmd image])
      | some true =>
        (.ok (),
         [.probe sandboxCmd image, .pull sandboxCmd image, .probe sandboxCmd image])
      | some false =>
        (.error .imageUnavailableAfterPull,
         [.probe sandboxCmd image, .pull sandboxCmd image, .probe sandboxCmd image])

/-- Number of pull events in a container-event trace. -/
def countPulls (trace : List ContainerEvent) : Nat :=
  match trace with
  | [] => 0
  | .pull _ _ :: rest => countPulls rest + 1
  | .probe _ _ :: rest => countPulls rest

/-- Behavior of `getSandboxCommand` under a generic enable: with the marker unset and
the effective option interpreting to `(true, "")`, the result is exactly
the platform fallback chain. -/
theorem getSandboxCommand_genericEnable (env : Env) (goos : String)
    (ce : String → Bool) (opt : SandboxOption)
    (hmark : env.sandboxVar = "")
    (hint : interpretOption (effectiveOption env opt) = (true, "")) :
    getSandboxCommand env goos ce opt =
      (if goos = "darwin" && ce "sandbox-exec" then .ok "sandbox-exec"
       else if ce "docker" then .ok "docker"
       else if ce "podman" then .ok "podman"
       else .error .noCommandForSandbox) := by
  simp [getSandboxCommand, IsInsideSandbox, hmark, hint]

/-- The resolved image is never empty: the default image is a non-empty
fallback. -/
theorem resolveImage_ne_empty (env : Env) (sandboxImageOption : String) :
    resolveImage env sandboxImageOption ≠ "" := by
  simp only [resolveImage]
  by_cases h0 : sandboxImageOption = ""
  · by_cases h1 : env.geminiSandboxImage = ""
    · simp only [h0, h1, if_true, if_pos rfl]
      decide
    · simp [h0, h1]
  · simp [h0]

/-- Resolution via `getSandboxCommand` never fails with the missing-image error: its error
outcomes are only invalid command, missing command, and
no-command-for-sandbox. -/
theorem getSandboxCommand_ne_missingImage (env : Env) (goos : String)
    (ce : String → Bool) (opt : SandboxOption) :
    getSandboxCommand env goos ce opt ≠ .error .missingImage := by
  simp only [getSandboxCommand]
  repeat' split
  all_goals simp

/-- Whenever `LoadConfig` returns a config, its image is exactly
`resolveImage` of the environment and the image option. -/
theorem loadConfig_ok_image (env : Env) (goos : String)
    (ce : String → Bool) (opt : SandboxOption) (imgOpt : String)
    (cfg : Config)
    (h : LoadConfig env goos ce opt imgOpt = .ok (some cfg)) :
    cfg.image = resolveImage env imgOpt := by
  unfold LoadConfig at h
  cases hr : getSandboxCommand env goos ce opt with
  | error e => rw [hr] at h; exact absurd h (by simp)
  | ok command =>
    rw [hr] at h
    by_cases hc : command = ""
    · simp [hc] at h
    · simp only [if_neg hc] at h
      split at h
      · exact absurd h (by simp)
      · simp only [Except.ok.injEq, Option.some.injEq] at h
        rw [← h]

end Sandbox

open Sandbox

/-- C1: if `GEMINI_SANDBOX` is non-empty, `getSandboxCommand` behaves
exactly as if that string had been supplied as the option value (with the
override cleared), for every option value, platform and probe: the supplied
option has no influence on the result. -/
theorem c1_env_override_replaces_option (env : Env) (goos : String)
    (ce : String → Bool) (opt : SandboxOption)
    (h : env.geminiSandbox ≠ "") :
    getSandboxCommand env goos ce opt =
      getSandboxCommand { env with geminiSandbox := "" } goos ce
        (.strOpt env.geminiSandbox) := by
  simp [getSandboxCommand, IsInsideSandbox, effectiveOption, h]

/-- C1 witness at a concrete input: option `docker`, override `podman`. -/
theorem c1_env_override_replaces_option_witness :
    getSandboxCommand ⟨"", "podman", "", ""⟩ "linux" (fun c => c == "podman")
        (.strOpt "docker") =
      getSandboxCommand ⟨"", "", "", ""⟩ "linux" (fun c => c == "podman")
        (.strOpt "podman") :=
  c1_env_override_replaces_option ⟨"", "podman", "", ""⟩ "linux"
    (fun c => c == "podman") (.strOpt "docker") (by decide)

/-- C2: under a generic enable (effective option interprets to boolean true
with no explicit backend name, not inside a sandbox), `getSandboxCommand`
applies the platform fallback order: on darwin it returns `sandbox-exec`
whenever that executable exists (even if docker and podman also exist);
otherwise `docker` if it exists, else `podman` if it exists, else an
error. -/
theorem c2_platform_fallback_order (env : Env) (goos : String)
    (ce : String → Bool) (opt : SandboxOption)
    (hmark : env.sandboxVar = "")
    (hint : interpretOption (effectiveOption env opt) = (true, "")) :
    (goos = "darwin" → ce "sandbox-exec" = true →
      getSandboxCommand env goos ce opt = .ok "sandbox-exec") ∧
    (¬ (goos = "darwin" ∧ ce "sandbox-exec" = true) → ce "docker" = true →
      getSandboxCommand env goos ce opt = .ok "docker") ∧
    (¬ (goos = "darwin" ∧ ce "sandbox-exec" = true) → ce "docker" = false →
      ce "podman" = true → getSandboxCommand env goos ce opt = .ok "podman") ∧
    (¬ (goos = "darwin" ∧ ce "sandbox-exec" = true) → ce "docker" = false →
      ce "podman" = false →
      getSandboxCommand env goos ce opt = .error .noCommandForSandbox) := by
  rw [getSandboxCommand_genericEnable env goos ce opt hmark hint]
  refine ⟨?_, ?_, ?_, ?_⟩
  · intro hd hse
    simp [hd, hse]
  · intro hne hd
    have : (goos = "darwin" && ce "sandbox-exec") = false := by
      by_cases hg : goos = "darwin"
      · have hs : ce "sandbox-exec" = false := by
          cases hse : ce "sandbox-exec"
          · rfl
          · exact absurd ⟨hg, hse⟩ hne
        simp [hs]
      · simp [hg]
    simp [this, hd]
  · intro hne hd hp
    have : (goos = "darwin" && ce "sandbox-exec") = false := by
      by_cases hg : goos = "darwin"
      · have hs : ce "sandbox-exec" = false := by
          cases hse : ce "sandbox-exec"
          · rfl
          · exact absurd ⟨hg, hse⟩ hne
        simp [hs]
      · simp [hg]
    simp [this, hd, hp]
  · intro hne hd hp
    have : (goos = "darwin" && ce "sandbox-exec") = false := by
      by_cases hg : goos = "darwin"
      · have hs : ce "sandbox-exec" = false := by
          cases hse : ce "sandbox-exec"
          · rfl
          · exact absurd ⟨hg, hse⟩ hne
        simp [hs]
      · simp [hg]
    simp [this, hd, hp]

/-- C2 witness at a concrete input: darwin with all three executables
present selects `sandbox-exec`. -/
theorem c2_platform_fallback_order_witness :
    getSandboxCommand ⟨"", "", "", ""⟩ "darwin" (fun _ => true)
      (.boolOpt true) = .ok "sandbox-exec" :=
  (c2_platform_fallback_order ⟨"", "", "", ""⟩ "darwin" (fun _ => true)
      (.boolOpt true) rfl rfl).1 rfl rfl

/-- C3: an explicit backend name (after trimming and lowercasing) that is
not one of `docker`, `podman`, `sandbox-exec` makes `getSandboxCommand`
fail with the invalid-backend error, for every probe function and platform:
probe results never change this outcome. -/
theorem c3_invalid_backend_name (env : Env) (goos : String)
    (ce : String → Bool) (opt : SandboxOption) (b : Bool) (c : String)
    (hmark : env.sandboxVar = "")
    (hint : interpretOption (effectiveOption env opt) = (b, c))
    (hne : c ≠ "") (hinv : isValidCmd c = false) :
    getSandboxCommand env goos ce opt = .error (.invalidCommand c) := by
  simp [getSandboxCommand, IsInsideSandbox, hmark, hint, hne, hinv]

/-- C3 witness at a concrete input: explicit name `rkt` fails as invalid
even though every executable exists. -/
theorem c3_invalid_backend_name_witness :
    getSandboxCommand ⟨"", "", "", ""⟩ "darwin" (fun _ => true)
      (.strOpt "rkt") = .error (.invalidCommand "rkt") :=
  c3_invalid_backend_name ⟨"", "", "", ""⟩ "darwin" (fun _ => true)
    (.strOpt "rkt") false "rkt" rfl (by decide) (by decide) (by decide)

/-- C4: when the `SANDBOX` marker variable is non-empty,
`getSandboxCommand` returns the empty backend with no error, regardless of
the option value, the `GEMINI_SANDBOX` override, the platform and the
probe. -/
theorem c4_inside_sandbox_no_op (env : Env) (goos : String)
    (ce : String → Bool) (opt : SandboxOption)
    (h : env.sandboxVar ≠ "") :
    getSandboxCommand env goos ce opt = .ok "" := by
  simp [getSandboxCommand, IsInsideSandbox, h]

/-- C4 witness at a concrete input: `SANDBOX=docker` with an explicit
option and override still yields no sandbox. -/
theorem c4_inside_sandbox_no_op_witness :
    getSandboxCommand ⟨"docker", "podman", "", ""⟩ "linux" (fun _ => true)
      (.strOpt "docker") = .ok "" :=
  c4_inside_sandbox_no_op ⟨"docker", "podman", "", ""⟩ "linux" (fun _ => true)
    (.strOpt "docker") (by decide)

/-- C10: string option interpretation is whitespace- and case-insensitive —
the result of `getSandboxCommand` depends on a string option only through
its trimmed, lowercased form; concretely, `" TRUE "` enables generic
sandboxing, `"False"` disables it, `"Docker"` selects the docker backend;
and every option of a type other than bool or string is treated as
disabled. -/
theorem c10_string_option_canonicalization :
    (∀ (env : Env) (goos : String) (ce : String → Bool) (s t : String),
        toLowerStr (trimSpace s) = toLowerStr (trimSpace t) →
        getSandboxCommand env goos ce (.strOpt s) =
          getSandboxCommand env goos ce (.strOpt t)) ∧
    getSandboxCommand ⟨"", "", "", ""⟩ "linux" (fun c => c == "docker")
        (.strOpt " TRUE ") = .ok "docker" ∧
    getSandboxCommand ⟨"", "", "", ""⟩ "linux" (fun _ => true)
        (.strOpt "False") = .ok "" ∧
    getSandboxCommand ⟨"", "", "", ""⟩ "linux" (fun c => c == "docker")
        (.strOpt "Docker") = .ok "docker" ∧
    (∀ (env : Env) (goos : String) (ce : String → Bool),
        env.sandboxVar = "" → env.geminiSandbox = "" →
        getSandboxCommand env goos ce .otherOpt = .ok "") := by
  refine ⟨?_, rfl, rfl, rfl, ?_⟩
  · intro env goos ce s t h
    have hi : interpretOption (.strOpt s) = interpretOption (.strOpt t) := by
      simp [interpretOption, h]
    by_cases hg : env.geminiSandbox = ""
    · simp [getSandboxCommand, effectiveOption, hg, hi]
    · simp [getSandboxCommand, effectiveOption, hg]
  · intro env goos ce hmark hg
    simp [getSandboxCommand, IsInsideSandbox, hmark, effectiveOption, hg,
      interpretOption]

/-- C10 witness at a concrete input: `" Docker "` and `"DOCKER"` resolve
identically, and a non-bool/non-string option resolves to no sandbox. -/
theorem c10_string_option_canonicalization_witness :
    getSandboxCommand ⟨"", "", "", ""⟩ "linux" (fun c => c == "docker")
        (.strOpt " Docker ") =
      getSandboxCommand ⟨"", "", "", ""⟩ "linux" (fun c => c == "docker")
        (.strOpt "DOCKER") ∧
    getSandboxCommand ⟨"", "", "", ""⟩ "linux" (fun _ => true) .otherOpt =
      .ok "" :=
  ⟨c10_string_option_canonicalization.1 ⟨"", "", "", ""⟩ "linux"
      (fun c => c == "docker") " Docker " "DOCKER" (by decide),
   c10_string_option_canonicalization.2.2.2.2 ⟨"", "", "", ""⟩ "linux"
      (fun _ => true) rfl rfl⟩

/-- C5 counterexample: a successful `LoadConfig` resolving the
`sandbox-exec` backend with no image override and no image environment
variable returns the built-in default image, which is not the empty
string — the image field is not empty for the os-profile backend. -/
theorem c5_counterexample_os_profile_image_not_empty :
    LoadConfig ⟨"", "", "", ""⟩ "darwin" (fun _ => true)
        (.strOpt "sandbox-exec") "" =
      .ok (some { command := "sandbox-exec", image := defaultImage }) ∧
    defaultImage ≠ "" :=
  ⟨rfl, by decide⟩

/-- C5 amended: for every successful `LoadConfig` call whose resolved
backend is `sandbox-exec`, the image field of the returned config is the
resolved image (the override if non-empty, else `GEMINI_SANDBOX_IMAGE` if
non-empty, else the built-in default image), and is never the empty
string. -/
theorem c5_amended_os_profile_image (env : Env) (goos : String)
    (ce : String → Bool) (opt : SandboxOption) (imgOpt : String)
    (cfg : Config)
    (h : LoadConfig env goos ce opt imgOpt = .ok (some cfg))
    (_hcmd : cfg.command = "sandbox-exec") :
    cfg.image = resolveImage env imgOpt ∧ cfg.image ≠ "" := by
  have himg := loadConfig_ok_image env goos ce opt imgOpt cfg h
  exact ⟨himg, himg ▸ resolveImage_ne_empty env imgOpt⟩

/-- C5 amended witness at a concrete input: `sandbox-exec` resolved with
an explicit image override keeps that override as the image. -/
theorem c5_amended_os_profile_image_witness :
    LoadConfig ⟨"", "", "", ""⟩ "darwin" (fun _ => true)
        (.strOpt "sandbox-exec") "my-image" =
      .ok (some { command := "sandbox-exec", image := "my-image" }) ∧
    "my-image" = resolveImage ⟨"", "", "", ""⟩ "my-image" ∧
    "my-image" ≠ "" := by
  refine ⟨rfl, ?_⟩
  have := c5_amended_os_profile_image ⟨"", "", "", ""⟩ "darwin"
    (fun _ => true) (.strOpt "sandbox-exec") "my-image"
    { command := "sandbox-exec", image := "my-image" } rfl rfl
  exact this

/-- C6 counterexample: with a container backend (docker) resolved and no
resolvable image (empty override and empty `GEMINI_SANDBOX_IMAGE`),
`LoadConfig` does not fail with a missing-image error — it succeeds with
the built-in default image. -/
theorem c6_counterexample_no_missing_image_error :
    LoadConfig ⟨"", "", "", ""⟩ "linux" (fun c => c == "docker")
        (.boolOpt true) "" =
      .ok (some { command := "docker", image := defaultImage }) :=
  rfl

/-- C6 amended: `LoadConfig` never fails with the missing-image error (the
built-in default image fallback makes that branch unreachable); when a
container backend is resolved and both the image override and
`GEMINI_SANDBOX_IMAGE` are empty, any returned config carries the built-in
default image. -/
theorem c6_amended_default_image_fallback (env : Env) (goos : String)
    (ce : String → Bool) (opt : SandboxOption) (imgOpt : String) :
    LoadConfig env goos ce opt imgOpt ≠ .error .missingImage ∧
    (imgOpt = "" → env.geminiSandboxImage = "" →
      ∀ cfg : Config, LoadConfig env goos ce opt imgOpt = .ok (some cfg) →
        cfg.image = defaultImage) := by
  constructor
  · intro h
    unfold LoadConfig at h
    cases hr : getSandboxCommand env goos ce opt with
    | error e =>
      rw [hr] at h
      simp only [Except.error.injEq] at h
      rw [h] at hr
      exact getSandboxCommand_ne_missingImage env goos ce opt hr
    | ok command =>
      rw [hr] at h
      by_cases hc : command = ""
      · simp [hc] at h
      · simp only [if_neg hc] at h
        split at h
        · next hcond =>
          have hne := resolveImage_ne_empty env imgOpt
          simp only [Bool.and_eq_true, decide_eq_true_eq] at hcond
          exact hne hcond.1
        · exact absurd h (by simp)
  · intro h1 h2 cfg h
    have himg := loadConfig_ok_image env goos ce opt imgOpt cfg h
    rw [himg]
    simp [resolveImage, h1, h2]

/-- C6 amended witness at a concrete input: docker resolved, no image
anywhere, `LoadConfig` returns the default image and no error. -/
theorem c6_amended_default_image_fallback_witness :
    LoadConfig ⟨"", "", "", ""⟩ "linux" (fun c => c == "docker")
        (.boolOpt true) "" ≠ .error .missingImage ∧
    Config.image { command := "docker", image := defaultImage } =
      defaultImage := by
  have := c6_amended_default_image_fallback ⟨"", "", "", ""⟩ "linux"
    (fun c => c == "docker") (.boolOpt true) ""
  exact ⟨this.1, this.2 rfl rfl { command := "docker", image := defaultImage } rfl⟩

/-- C7: when no bundled template exists for the resolved profile name
(`SEATBELT_PROFILE` override or the default), `startSandboxExec` fails
with the unknown-profile error and its filesystem trace is empty: no
transient file is created before the template lookup succeeds. -/
theorem c7_unknown_profile_no_writes (w : ExecWorld) (env : Env)
    (args : List String)
    (h : findProfile w.profiles (resolveProfileName env) = none) :
    startSandboxExec w env args =
      (.failed (.missingProfile (resolveProfileName env)), []) := by
  simp only [startSandboxExec, h]

/-- C7 witness at a concrete input: profile `bogus` is not bundled, so the
launch fails with no filesystem events. -/
theorem c7_unknown_profile_no_writes_witness :
    startSandboxExec
        ⟨[("permissive-open", "(version 1)")], some "/tmp/p.sb", true, true,
         some "/w", "/tmp", some "/home", some "/cache", "/bin/gemini", [],
         none⟩
        ⟨"", "", "", "bogus"⟩ [] =
      (.failed (.missingProfile "bogus"), []) :=
  c7_unknown_profile_no_writes
    ⟨[("permissive-open", "(version 1)")], some "/tmp/p.sb", true, true,
     some "/w", "/tmp", some "/home", some "/cache", "/bin/gemini", [],
     none⟩
    ⟨"", "", "", "bogus"⟩ [] (by decide)

/-- C8: whenever `startSandboxExec` returns an error after creating the
transient profile file, the deferred removal has run: every created file
has a matching removal event in the trace by the time the function
returns. -/
theorem c8_transient_file_removed_on_failure (w : ExecWorld) (env : Env)
    (args : List String) (e : SandboxError) (tr : List FsEvent) (n : String)
    (h : startSandboxExec w env args = (.failed e, tr))
    (hc : FsEvent.createTemp n ∈ tr) :
    FsEvent.remove n ∈ tr := by
  simp only [startSandboxExec] at h
  repeat' split at h
  all_goals simp only [Prod.mk.injEq] at h
  all_goals try (obtain ⟨he, ht⟩ := h; subst ht)
  all_goals simp_all

/-- C8 witness at a concrete input: the exec call fails, and the created
temp file `/tmp/p.sb` has a removal event in the trace. -/
theorem c8_transient_file_removed_on_failure_witness :
    FsEvent.remove "/tmp/p.sb" ∈
      [FsEvent.createTemp "/tmp/p.sb", FsEvent.write "/tmp/p.sb",
       FsEvent.remove "/tmp/p.sb"] :=
  c8_transient_file_removed_on_failure
    ⟨[("permissive-open", "(version 1)")], some "/tmp/p.sb", true, true,
     some "/w", "/tmp", some "/home", some "/cache", "/bin/gemini", [],
     some .execFailed⟩
    ⟨"", "", "", ""⟩ [] .execFailed
    [FsEvent.createTemp "/tmp/p.sb", FsEvent.write "/tmp/p.sb",
     FsEvent.remove "/tmp/p.sb"] "/tmp/p.sb" rfl (by simp)

/-- C9: `ensureSandboxImageIsPresent` pulls at most once: no pull happens
when the first probe finds the image, and when the image is still absent
after the one pull the function fails with the
image-unavailable-after-pull error with exactly one pull in its trace. -/
theorem c9_pull_at_most_once (w : ImageWorld) (cmd image : String) :
    countPulls (ensureSandboxImageIsPresent w cmd image).2 ≤ 1 ∧
    (w.probe1 = some true →
      countPulls (ensureSandboxImageIsPresent w cmd image).2 = 0) ∧
    (w.probe1 = some false → w.pullOk = true → w.probe2 = some false →
      ensureSandboxImageIsPresent w cmd image =
        (.error .imageUnavailableAfterPull,
         [.probe cmd image, .pull cmd image, .probe cmd image]) ∧
      countPulls (ensureSandboxImageIsPresent w cmd image).2 = 1) := by
  rcases w with ⟨p1, pk, p2⟩
  refine ⟨?_, ?_, ?_⟩ <;>
    rcases p1 with _ | b1 <;>
    (try cases b1) <;>
    cases pk <;>
    rcases p2 with _ | b2 <;>
    (try cases b2) <;>
    simp [ensureSandboxImageIsPresent, countPulls]

/-- C9 witness at a concrete input: image absent before and after the one
pull — the call fails with exactly one pull event. -/
theorem c9_pull_at_most_once_witness :
    ensureSandboxImageIsPresent ⟨some false, true, some false⟩ "docker"
        "img" =
      (.error .imageUnavailableAfterPull,
       [.probe "docker" "img", .pull "docker" "img",
        .probe "docker" "img"]) ∧
    countPulls (ensureSandboxImageIsPresent ⟨some false, true, some false⟩
        "docker" "img").2 = 1 :=
  (c9_pull_at_most_once ⟨some false, true, some false⟩ "docker"
      "img").2.2 rfl rfl rfl
